import Mathlib

/-!
Shallow embedding of `src/amount_rounder.py` (Balance-sheet figure round-off).

Modelling conventions:
* Python numbers (int/float) are modelled as exact rationals `ℚ`.  Python's
  `round(x, 2)` rounds to the nearest multiple of 1/100 with ties to the even
  multiple (banker's rounding); `pyRound2` implements exactly that on `ℚ`.
* Python strings are modelled as `List Char`; `in` (substring) is `listIn`,
  `str.lower()` is `List.map Char.toLower`, `str.split()` is splitting on the
  Python whitespace set.
* The two regexes in `YEAR_REGEXES` are modelled directly as executable
  matchers over `List Char` (word characters taken as ASCII alphanumerics
  plus an underscore, which is what the workbook texts use).
* Cell values carry the variant type used by the program: absent, number,
  boolean, text, datetime.
-/

namespace AmountRounder

/-- Python whitespace characters (the set recognised by `str.split` and
`str.strip`). -/
def isPyWs (c : Char) : Bool :=
  c = ' ' || c = '\t' || c = '\n' || c = '\r' || c = '\x0b' || c = '\x0c'

/-- Whether `pat` is a prefix of `s` (comparing characters). -/
def listPre : List Char → List Char → Bool
  | [], _ => true
  | _ :: _, [] => false
  | p :: ps, q :: qs => p = q && listPre ps qs

/-- Python's substring test `pat in s`. -/
def listIn (pat : List Char) (s : List Char) : Bool :=
  match s with
  | [] => pat.isEmpty
  | _ :: tail => listPre pat s || listIn pat tail

/-- Python `str.strip()`: drop whitespace at both ends. -/
def pyStrip (l : List Char) : List Char :=
  ((l.dropWhile isPyWs).reverse.dropWhile isPyWs).reverse

/-- Source `normalize_header`: replace newlines with spaces, strip, lower-case,
split on whitespace and re-join with single spaces.  (`strip()` before the
split is redundant because `split()` already discards empty fragments, so it
is folded into the split here.) -/
def normalize_header (l : List Char) : List Char :=
  let repl := l.map (fun c => if c = '\n' then ' ' else c)
  let low := repl.map Char.toLower
  List.intercalate [' '] ((low.splitOnP isPyWs).filter (fun w => !w.isEmpty))

/-- Floor of a rational, computed by floor-division of the numerator by the
(positive) denominator.  Agrees with the mathematical floor. -/
def ratFloor (q : ℚ) : ℤ := q.num.fdiv (q.den : ℤ)

/-- Source `round_half_up_int`: `int(sign * floor(abs(x) + 0.5))`. -/
def round_half_up_int (x : ℚ) : ℤ :=
  let sign : ℤ := if x < 0 then -1 else 1
  sign * ratFloor (|x| + (1 : ℚ) / 2)

/-- Python's `round` to the nearest integer: round-half-to-even (banker's
rounding), which is what `round(x, n)` applies to the scaled value. -/
def roundHalfEven (q : ℚ) : ℤ :=
  let n := ratFloor q
  let f := q - (n : ℚ)
  if f < 1 / 2 then n
  else if 1 / 2 < f then n + 1
  else if n % 2 = 0 then n else n + 1

/-- Python's `round(x, 2)` on the exact rational value: nearest multiple of
1/100, ties to the even multiple. -/
def pyRound2 (q : ℚ) : ℚ := (roundHalfEven (q * 100) : ℚ) / 100

/-- Source `_should_fallback_to_thousand`. -/
def should_fallback_to_thousand (val : ℚ) (lakh_edge_threshold : ℚ) : Bool :=
  |val| < lakh_edge_threshold

/-- Source `_divide_amount`: convert by dividing into thousand/lakh with two
decimal places; unrecognized modes are the identity. -/
def divide_amount (val : ℚ) (mode : List Char) (lakh_edge_threshold : ℚ) : ℚ :=
  if mode = "thousand".toList then pyRound2 (val / 1000)
  else if mode = "lakh".toList then
    if should_fallback_to_thousand val lakh_edge_threshold then pyRound2 (val / 1000)
    else pyRound2 (val / 100000)
  else if mode = "auto".toList then
    if 100000 ≤ |val| then pyRound2 (val / 100000)
    else if lakh_edge_threshold ≤ |val| then pyRound2 (val / 1000)
    else val
  else val

/-! ### Cell values and sheets -/

/-- The variant type of a cell's evaluated value: absent (`None`), number
(int/float, with Python `bool` kept as its own variant because the source
always tests `not isinstance(v, bool)`), text, or datetime. -/
inductive Value where
  | none : Value
  | num : ℚ → Value
  | bool : Bool → Value
  | str : List Char → Value
  | date : Value
deriving DecidableEq

/-- One grid cell: evaluated value, display-format string and whether the
cell is a non-anchor member of a merged region (`MergedCell`). -/
structure Cell where
  value : Value
  number_format : List Char
  isMerged : Bool
deriving DecidableEq

/-- One worksheet: a title and the cell grid as produced by `iter_rows`
(row-major, 1-based columns given by list position + 1). -/
structure Sheet where
  title : List Char
  rows : List (List Cell)
deriving DecidableEq

/-- The run configuration consumed by the per-sheet processing. -/
structure Config where
  mode : List Char
  header_row : Nat
  lakh_edge_threshold : ℚ

/-- Per-sheet counters as in the source's `ws_stats`. -/
structure Stats where
  cells_seen : Nat
  cells_converted : Nat
deriving DecidableEq

/-- The run summary dictionary built by `process_excel`. -/
structure Summary where
  mode : List Char
  header_row : Nat
  lakh_edge_threshold : ℚ
  sheets : List (List Char × Stats)
  totals : Stats
deriving DecidableEq

/-- A cell holding no value, as openpyxl reports for unused grid positions. -/
def emptyCell : Cell := ⟨Value.none, [], false⟩

/-- `ws.cell(row=r, column=c)` (1-based); out-of-grid positions read as
absent values. -/
def getCell (sheet : Sheet) (r c : Nat) : Cell :=
  (((sheet.rows.get? (r - 1)).getD []).get? (c - 1)).getD emptyCell

/-- `ws.max_column`: the width of the materialized grid. -/
def maxCol (sheet : Sheet) : Nat :=
  sheet.rows.foldl (fun m r => max m r.length) 0

/-! ### Token sets from the source -/

/-- Source `DAYS_HEADER_VARIANTS`. -/
def DAYS_HEADER_VARIANTS : List (List Char) :=
  ["no of days", "no. of days", "number of days", "days", "no days",
   "no of day"].map String.toList

/-- Source `YEARISH_HEADER_TOKENS`. -/
def YEARISH_HEADER_TOKENS : List (List Char) :=
  ["year", "yr", "fy", "f.y.", "financial year", "fiscal year",
   "ay", "assessment year", "calendar year", "period", "quarter",
   "qtr"].map String.toList

/-- Source `MONTH_TOKENS`. -/
def MONTH_TOKENS : List (List Char) :=
  ["jan", "january", "feb", "february", "mar", "march", "apr", "april",
   "may", "jun", "june", "jul", "july", "aug", "august", "sep", "sept",
   "september", "oct", "october", "nov", "november", "dec",
   "december"].map String.toList

/-- Source `ROW_YEARISH_TOKENS`.  Note: contains `"year ended"` but not the
bare tokens `"year"` or `"yr"`. -/
def ROW_YEARISH_TOKENS : List (List Char) :=
  ["as at", "as on", "year ended", "fy", "financial year", "fiscal year",
   "assessment year", "ay", "quarter", "qtr", "balance sheet",
   "profit and loss", "statement of"].map String.toList

/-- The date-shaped display-format tokens tested in `_looks_like_year`. -/
def FMT_DATE_TOKENS : List (List Char) :=
  ["yy", "yyyy", "mmm", "mm/", "dd", "-yy", "d-m", "m-d"].map String.toList

/-! ### The two regexes of `YEAR_REGEXES`

`re.search` over a regex with no unbounded repetition before a fixed
alternative is modelled by trying a match at every start position.  A word
character (for `\b`) is an ASCII alphanumeric or an underscore, the alphabet
these workbook texts use. -/

/-- Regex word character (for the word-boundary `\b`). -/
def isWordChar (c : Char) : Bool := c.isAlphanum || c = '_'

/-- A `\b` just before the match: start of string or a non-word character
immediately before (the year patterns start with a word character). -/
def boundaryBefore : Option Char → Bool
  | Option.none => true
  | Option.some c => !isWordChar c

/-- A `\b` just after the match: end of string or a non-word character next
(the year patterns end with a word character). -/
def boundaryAfter : List Char → Bool
  | [] => true
  | c :: _ => !isWordChar c

/-- Match of `\b(19|20)\d{2}\b` starting at the current position, where
`prev` is the character immediately before that position. -/
def year4At (prev : Option Char) (s : List Char) : Bool :=
  match s with
  | c1 :: c2 :: c3 :: c4 :: rest =>
      ((c1 = '1' && c2 = '9') || (c1 = '2' && c2 = '0')) && c3.isDigit &&
        c4.isDigit && boundaryBefore prev && boundaryAfter rest
  | _ => false

/-- The tail of the second regex after the four-digit year: optional
whitespace, a dash or slash, optional whitespace, two digits, then a word
boundary.  The whitespace repetitions are forced to consume every whitespace
character because the following atoms match no whitespace. -/
def rangeTail (s : List Char) : Bool :=
  match s.dropWhile isPyWs with
  | c :: rest =>
      (c = '-' || c = '/') &&
      (match rest.dropWhile isPyWs with
       | d1 :: d2 :: rest2 => d1.isDigit && d2.isDigit && boundaryAfter rest2
       | _ => false)
  | [] => false

/-- Match of the second regex (a four-digit year, then dash or slash, then a
two-digit suffix, with word boundaries at both ends) starting at the current
position. -/
def yearRangeAt (prev : Option Char) (s : List Char) : Bool :=
  match s with
  | c1 :: c2 :: c3 :: c4 :: rest =>
      ((c1 = '1' && c2 = '9') || (c1 = '2' && c2 = '0')) && c3.isDigit &&
        c4.isDigit && boundaryBefore prev && rangeTail rest
  | _ => false

/-- `re.search`: try the position matcher at every start position,
remembering the previous character for the leading word boundary. -/
def searchWith (f : Option Char → List Char → Bool) :
    Option Char → List Char → Bool
  | prev, [] => f prev []
  | prev, c :: cs => f prev (c :: cs) || searchWith f (Option.some c) cs

/-- `any(rx.search(s) for rx in YEAR_REGEXES)`. -/
def yearRegexSearch (s : List Char) : Bool :=
  searchWith year4At Option.none s || searchWith yearRangeAt Option.none s

/-! ### Year/date detection -/

/-- Source `_cell_has_yearish_text`. -/
def cell_has_yearish_text (val : List Char) : Bool :=
  let s := normalize_header val
  if s.isEmpty then false
  else if yearRegexSearch s then true
  else if ROW_YEARISH_TOKENS.any (fun tok => listIn tok s) then true
  else if MONTH_TOKENS.any (fun m => listIn m s) && yearRegexSearch s then
    true
  else false

/-- Source `_is_four_digit_year_num`: a non-boolean number that is integral
and lies in `[1900, 2100]`. -/
def is_four_digit_year_num : Value → Bool
  | Value.num q => q.den = 1 && decide (1900 ≤ q.num) && decide (q.num ≤ 2100)
  | _ => false

/-- The per-cell test of `_collect_yearish_columns`: a text cell with
year-ish text, or (elif) a four-digit-year number. -/
def cellValYearish : Value → Bool
  | Value.str s => cell_has_yearish_text s
  | v => is_four_digit_year_num v

/-- Source `_collect_yearish_columns` (with `scan_rows = 6`), as a column
predicate: some cell of column `c` in the first six rows is year-ish. -/
def col_yearish (sheet : Sheet) (c : Nat) : Bool :=
  (sheet.rows.take 6).any (fun row =>
    match row.get? (c - 1) with
    | Option.some cell => cellValYearish cell.value
    | Option.none => false)

/-- Source `_row_looks_yearish`: concatenate the row's non-empty text cells
and test the joined, normalized text. -/
def row_looks_yearish (row : List Cell) : Bool :=
  let texts := row.filterMap (fun c =>
    match c.value with
    | Value.str s => if s.isEmpty then Option.none else Option.some s
    | _ => Option.none)
  if texts.isEmpty then false
  else cell_has_yearish_text (normalize_header (List.intercalate (" ".toList) texts))

/-- Source `is_percentage_cell`: a percent sign in the lower-cased display
format. -/
def is_percentage_cell (cell : Cell) : Bool :=
  (cell.number_format.map Char.toLower).contains '%'

/-- Source `_looks_like_year`: a real datetime, or a four-digit-year number
in a year-ish column or row, or under a year-ish header, or with a
date-shaped display format. -/
def looks_like_year (cell : Cell) (hdr_text : List Char) (v : Value)
    (column_yearish row_yearish : Bool) : Bool :=
  match v with
  | Value.date => true
  | _ =>
    if is_four_digit_year_num v then
      if column_yearish || row_yearish then true
      else
        let fmt := cell.number_format.map Char.toLower
        let header_yearish :=
          YEARISH_HEADER_TOKENS.any (fun tok => listIn tok hdr_text)
        let fmt_yearish := FMT_DATE_TOKENS.any (fun x => listIn x fmt)
        header_yearish || fmt_yearish
    else false

/-! ### Headers, days columns, sheet flags -/

/-- Python `str()` as applied by `normalize_header` to a header cell's raw
value.  `None` is answered before `str()` is reached (it normalizes to the
empty string).  The renderings of numbers, booleans and datetimes are
modelled by representative strings; every consumer of header text only
looks for fixed lower-case alphabetic tokens ("day", "year", ...), and the
actual Python renderings of these variants contain, like the modelled ones,
no such token, so the choice is not observable. -/
def str_of_value : Value → List Char
  | Value.none => []
  | Value.str s => s
  | Value.num q =>
      (Int.repr q.num).toList ++
        (if q.den = 1 then [] else '/' :: (Nat.repr q.den).toList)
  | Value.bool b => if b then "True".toList else "False".toList
  | Value.date => "1900-01-01 00:00:00".toList

/-- Truthiness of the `hdrs` dictionary: `header_map` is computed only when
`ws.max_row >= header_row` and is empty when the sheet has no columns. -/
def hdrs_nonempty (sheet : Sheet) (header_row : Nat) : Bool :=
  decide (header_row ≤ sheet.rows.length) && decide (1 ≤ maxCol sheet)

/-- `hdrs.get(col, "")` of the source: the normalized header text of column
`c`, or the empty string when the header map was not built or the column is
outside it. -/
def header_text (sheet : Sheet) (header_row : Nat) (c : Nat) : List Char :=
  if header_row ≤ sheet.rows.length ∧ 1 ≤ c ∧ c ≤ maxCol sheet then
    normalize_header (str_of_value (getCell sheet header_row c).value)
  else []

/-- `"depreciation" in (ws.title or "").strip().lower()`. -/
def is_depr_sheet (sheet : Sheet) : Bool :=
  listIn ("depreciation".toList) ((pyStrip sheet.title).map Char.toLower)

/-- The per-header test populating `days_cols`: the normalized header is one
of the fixed variants, or contains "day" but not "holiday". -/
def days_header_pred (h : List Char) : Bool :=
  DAYS_HEADER_VARIANTS.any (fun t => h = t) ||
    (listIn ("day".toList) h && !listIn ("holiday".toList) h)

/-- `cell.column in days_cols`: the column is in the days set, which is only
populated on a depreciation sheet with a non-empty header map. -/
def col_is_days (cfg : Config) (sheet : Sheet) (c : Nat) : Bool :=
  is_depr_sheet sheet && hdrs_nonempty sheet cfg.header_row &&
    decide (1 ≤ c) && decide (c ≤ maxCol sheet) &&
    days_header_pred (header_text sheet cfg.header_row c)

/-! ### The per-cell body of the processing loop -/

/-- Whether the value satisfies `isinstance(v, (int, float)) and not
isinstance(v, bool)`. -/
def isNumVal : Value → Bool
  | Value.num _ => true
  | _ => false

/-- Whether the value satisfies `isinstance(v, (int, float, datetime)) and
not isinstance(v, bool)`. -/
def isNumOrDate : Value → Bool
  | Value.num _ => true
  | Value.date => true
  | _ => false

/-- Numeric payload (only inspected under an `isNumVal` guard). -/
def numOf : Value → ℚ
  | Value.num q => q
  | _ => 0

/-- The body of the cell loop after the `cells_seen` increment: returns the
(possibly rewritten) cell and the `cells_converted` increment (0 or 1).
Mirrors the source: days-column branch computes the half-up rounding for
statistics only and never writes it back; then percentages, year/date
look-alikes and sub-100 magnitudes are left untouched; remaining numerics
are divided and written back exactly when the result differs. -/
def convert_cell_value (cfg : Config) (sheet : Sheet) (row_yearish : Bool)
    (col : Nat) (cell : Cell) : Cell × Nat :=
  let v := cell.value
  if col_is_days cfg sheet col && isNumVal v then
    let _stat_only := round_half_up_int (numOf v)
    (cell, 0)
  else if isNumOrDate v then
    if is_percentage_cell cell then (cell, 0)
    else if looks_like_year cell (header_text sheet cfg.header_row col) v
        (col_yearish sheet col) row_yearish then (cell, 0)
    else if isNumVal v && decide (100 ≤ |numOf v|) then
      let new_v := divide_amount (numOf v) cfg.mode cfg.lakh_edge_threshold
      if new_v ≠ numOf v then ({ cell with value := Value.num new_v }, 1)
      else (cell, 0)
    else (cell, 0)
  else (cell, 0)

/-- One iteration of the inner cell loop: non-anchor merged cells are
skipped before any counting; every other cell counts once in `cells_seen`
and is handed to the conversion body.  Returns (cell after, seen increment,
converted increment). -/
def process_cell (cfg : Config) (sheet : Sheet) (row_yearish : Bool)
    (col : Nat) (cell : Cell) : Cell × Nat × Nat :=
  if cell.isMerged then (cell, 0, 0)
  else
    let r := convert_cell_value cfg sheet row_yearish col cell
    (r.1, 1, r.2)

/-- The cell loop over one row, `col` being the column of the first cell. -/
def process_cells (cfg : Config) (sheet : Sheet) (row_yearish : Bool) :
    Nat → List Cell → List Cell × Nat × Nat
  | _, [] => ([], 0, 0)
  | col, c :: cs =>
      let r := process_cell cfg sheet row_yearish col c
      let rest := process_cells cfg sheet row_yearish (col + 1) cs
      (r.1 :: rest.1, r.2.1 + rest.2.1, r.2.2 + rest.2.2)

/-- One row of the sheet loop: compute the row's year context once, then
run the cell loop from column 1. -/
def process_row (cfg : Config) (sheet : Sheet) (row : List Cell) :
    List Cell × Nat × Nat :=
  let rowY := row_looks_yearish row
  process_cells cfg sheet rowY 1 row

/-- Source sheet loop body: derived data (`hdrs`, `yearish_cols`,
`days_cols`, the depreciation flag) is a pure function of the original
sheet, computed before any mutation; rewritten values are always numeric and
never re-read by the row/column context scans of later rows, so processing
rows against the original sheet is exactly the in-place loop. -/
def process_sheet (cfg : Config) (sheet : Sheet) : Sheet × Stats :=
  let outs := sheet.rows.map (process_row cfg sheet)
  (⟨sheet.title, outs.map (fun p => p.1)⟩,
   ⟨(outs.map (fun p => p.2.1)).sum, (outs.map (fun p => p.2.2)).sum⟩)

/-- The number of grid cells that are not non-anchor merged cells. -/
def countNonMerged (rows : List (List Cell)) : Nat :=
  (rows.map (fun r => (r.filter (fun c => !c.isMerged)).length)).sum

/-! ### Sheet filtering and the run -/

/-- Python truthiness of an optional list argument. -/
def truthyList {α : Type} : Option (List α) → Bool
  | Option.none => false
  | Option.some l => !l.isEmpty

/-- Source `_sheet_allowed`: inclusion patterns (when the argument is truthy)
must match the title as a case-insensitive substring; any exclusion match
vetoes. -/
def sheet_allowed (sheets_inc sheets_exc : Option (List (List Char)))
    (name : List Char) : Bool :=
  let allowed :=
    if truthyList sheets_inc then
      (sheets_inc.getD []).any
        (fun pat => listIn (pat.map Char.toLower) (name.map Char.toLower))
    else true
  if truthyList sheets_exc &&
      (sheets_exc.getD []).any
        (fun pat => listIn (pat.map Char.toLower) (name.map Char.toLower)) then
    false
  else allowed

/-- One iteration of the sheet loop of `process_excel`: a disallowed sheet
is left alone and contributes no summary entry; an allowed sheet is
processed and contributes its (stripped-title, stats) entry. -/
def process_excel_step (cfg : Config)
    (sheets_inc sheets_exc : Option (List (List Char))) (ws : Sheet) :
    Sheet × Option (List Char × Stats) :=
  if sheet_allowed sheets_inc sheets_exc ws.title then
    let r := process_sheet cfg ws
    (r.1, Option.some (pyStrip ws.title, r.2))
  else (ws, Option.none)

/-- Source `process_excel` on the decoded workbook: filter sheets, process
each allowed sheet, record its (stripped-title, stats) entry and accumulate
totals.  Returns the mutated workbook and the summary. -/
def process_excel (mode : List Char) (header_row : Nat)
    (lakh_edge_threshold : ℚ) (sheets_inc sheets_exc : Option (List (List Char)))
    (wb : List Sheet) : List Sheet × Summary :=
  let cfg : Config := ⟨mode, header_row, lakh_edge_threshold⟩
  let outs := wb.map (process_excel_step cfg sheets_inc sheets_exc)
  let entries := outs.filterMap (fun p => p.2)
  let totals := entries.foldl
    (fun t e => ⟨t.cells_seen + e.2.cells_seen,
                 t.cells_converted + e.2.cells_converted⟩)
    ⟨0, 0⟩
  (outs.map (fun p => p.1),
   ⟨mode, header_row, lakh_edge_threshold, entries, totals⟩)

/-! ### Concrete data used by the witness theorems -/

/-- A thousand-mode configuration with the default parameters. -/
def cfgThousand : Config := ⟨"thousand".toList, 1, 50000⟩

/-- An auto-mode configuration with the default parameters. -/
def cfgAuto : Config := ⟨"auto".toList, 1, 50000⟩

/-- An unformatted amount cell holding 150000. -/
def amtCell : Cell := ⟨Value.num 150000, [], false⟩

/-- A non-anchor merged cell (openpyxl reports its value as `None`). -/
def mergedCell : Cell := ⟨Value.none, [], true⟩

/-- An ordinary cell with an absent value. -/
def noneCell : Cell := ⟨Value.none, [], false⟩

/-- A fractional day-count cell (45.5 days). -/
def daysCell : Cell := ⟨Value.num (91 / 2), [], false⟩

/-- A one-cell sheet containing a plain amount. -/
def sheetSummary : Sheet := ⟨"Summary".toList, [[amtCell]]⟩

/-- A depreciation sheet with a days column. -/
def sheetDepr : Sheet :=
  ⟨"Depreciation Schedule".toList,
   [[⟨Value.str ("No. of Days".toList), [], false⟩], [daysCell]]⟩

/-- A sheet containing a merged cell, an amount and an absent value. -/
def sheetMerged : Sheet :=
  ⟨"Summary".toList, [[mergedCell, amtCell], [noneCell]]⟩

/-! ## Theorems for the claims -/

/-- C1 counterexample: with `v = 125` in thousand mode the exact quotient
0.125 lies exactly halfway between 0.12 and 0.13, and the code's rounding
(Python `round`) produces 0.12 — toward zero, not away from zero as the
claim states. -/
theorem claim_C1_counterexample :
    (125 : ℚ) / 1000 * 100 - ((ratFloor ((125 : ℚ) / 1000 * 100) : ℤ) : ℚ)
        = 1 / 2 ∧
    divide_amount 125 ("thousand".toList) 50000 = 12 / 100 ∧
    divide_amount 125 ("thousand".toList) 50000 < (125 : ℚ) / 1000 ∧
    divide_amount 125 ("thousand".toList) 50000 ≠ 13 / 100 := by
  with_unfolding_all decide

/-- C1 amended: the 2-decimal rounding applied to the divided value in
thousand and lakh mode is round-half-to-even (banker's rounding, Python's
`round`): whenever the exact quotient lies exactly halfway between two
2-decimal values, the result is the neighbor with an even hundredths
multiplier, not necessarily the one away from zero. -/
theorem claim_C1 :
    (∀ q : ℚ, q * 100 - ((ratFloor (q * 100) : ℤ) : ℚ) = 1 / 2 →
        ∃ n : ℤ, n % 2 = 0 ∧ pyRound2 q = (n : ℚ) / 100) ∧
    (∀ v T : ℚ, divide_amount v ("thousand".toList) T = pyRound2 (v / 1000)) ∧
    (∀ v T : ℚ, divide_amount v ("lakh".toList) T =
        pyRound2 (if |v| < T then v / 1000 else v / 100000)) := by
  refine ⟨?_, ?_, ?_⟩
  · intro q h
    simp only [pyRound2, roundHalfEven]
    rw [h]
    rw [if_neg (by norm_num), if_neg (by norm_num)]
    by_cases hpar : ratFloor (q * 100) % 2 = 0
    · exact ⟨ratFloor (q * 100), hpar, by rw [if_pos hpar]⟩
    · exact ⟨ratFloor (q * 100) + 1, by omega, by rw [if_neg hpar]⟩
  · intro v T
    unfold divide_amount
    rw [if_pos rfl]
  · intro v T
    unfold divide_amount
    rw [if_neg (by decide), if_pos rfl]
    unfold should_fallback_to_thousand
    by_cases hfb : |v| < T
    · rw [if_pos (by simpa using hfb), if_pos hfb]
    · rw [if_neg (by simpa using hfb), if_neg hfb]

/-- C1 witness: the tie case and the thousand-mode rounding instantiated at
the concrete halfway quotient 0.125. -/
theorem claim_C1_witness :
    ((1 : ℚ) / 8 * 100 - ((ratFloor ((1 : ℚ) / 8 * 100) : ℤ) : ℚ) = 1 / 2) ∧
    (∃ n : ℤ, n % 2 = 0 ∧ pyRound2 ((1 : ℚ) / 8) = (n : ℚ) / 100) ∧
    divide_amount 125 ("thousand".toList) 50000 = pyRound2 ((125 : ℚ) / 1000) :=
  ⟨by with_unfolding_all decide,
   claim_C1.1 ((1 : ℚ) / 8) (by with_unfolding_all decide),
   claim_C1.2.1 125 50000⟩

/-- C3: lakh-mode conversion falls back to thousand division below the
threshold and divides by 100000 at or above it (rounding as the code's
2-decimal rounding). -/
theorem claim_C3 : ∀ v T : ℚ, 0 < T →
    (|v| < T → divide_amount v ("lakh".toList) T = pyRound2 (v / 1000)) ∧
    (T ≤ |v| → divide_amount v ("lakh".toList) T = pyRound2 (v / 100000)) := by
  intro v T _hT
  constructor
  · intro hlt
    unfold divide_amount
    rw [if_neg (by decide), if_pos rfl]
    unfold should_fallback_to_thousand
    rw [if_pos (by simpa using hlt)]
  · intro hge
    unfold divide_amount
    rw [if_neg (by decide), if_pos rfl]
    unfold should_fallback_to_thousand
    rw [if_neg (by simpa using not_lt.mpr hge)]

/-- C3 witness: `v = 150000`, `T = 50000` takes the lakh branch and yields
1.5. -/
theorem claim_C3_witness :
    (0 : ℚ) < 50000 ∧ (50000 : ℚ) ≤ |(150000 : ℚ)| ∧
    divide_amount 150000 ("lakh".toList) 50000 =
      pyRound2 ((150000 : ℚ) / 100000) :=
  ⟨by norm_num,
   by with_unfolding_all decide,
   (claim_C3 150000 50000 (by norm_num)).2 (by with_unfolding_all decide)⟩

/-- C4 counterexample: with `T = 200000` and `v = 150000` we have `|v| < T`,
yet auto mode rescales the value to 1.5 because the lakh branch tests the
fixed 100000 bound before the threshold. -/
theorem claim_C4_counterexample :
    (0 : ℚ) < 200000 ∧ |(150000 : ℚ)| < 200000 ∧
    divide_amount 150000 ("auto".toList) 200000 = 3 / 2 ∧
    divide_amount 150000 ("auto".toList) 200000 ≠ 150000 := by
  with_unfolding_all decide

/-- C4 amended: auto mode is the identity on values below the threshold
only when they are also below the fixed lakh bound 100000, i.e. when
`|v| < min T 100000`. -/
theorem claim_C4 : ∀ v T : ℚ, 0 < T → |v| < T → |v| < 100000 →
    divide_amount v ("auto".toList) T = v := by
  intro v T _h0 hT h100k
  unfold divide_amount
  rw [if_neg (by decide), if_neg (by decide), if_pos rfl,
    if_neg (not_le.mpr h100k), if_neg (not_le.mpr hT)]

/-- C4 witness: `v = 300`, `T = 50000` is returned unchanged by auto mode. -/
theorem claim_C4_witness :
    (0 : ℚ) < 50000 ∧ |(300 : ℚ)| < 50000 ∧ |(300 : ℚ)| < 100000 ∧
    divide_amount 300 ("auto".toList) 50000 = 300 :=
  ⟨by norm_num, by with_unfolding_all decide, by with_unfolding_all decide,
   claim_C4 300 50000 (by norm_num) (by with_unfolding_all decide)
     (by with_unfolding_all decide)⟩

/-- C2 counterexample: the token set actually checked by the year-ish text
predicate contains "year ended" but not the bare tokens "year" or "yr", so a
text cell whose normalized text is exactly "year" (no 4-digit year pattern)
does not satisfy the predicate. -/
theorem claim_C2_counterexample :
    normalize_header ("year".toList) = "year".toList ∧
    cell_has_yearish_text ("year".toList) = false ∧
    cell_has_yearish_text ("yr".toList) = false := by
  decide

/-- C2 amended: the predicate returns true for every text whose normalized
form contains a token of the fixed set actually used (as at, as on, year
ended, fy, financial year, fiscal year, assessment year, ay, quarter, qtr,
balance sheet, profit and loss, statement of); that set does not contain
the bare tokens "year" or "yr". -/
theorem claim_C2 :
    (∀ (s tok : List Char), tok ∈ ROW_YEARISH_TOKENS →
        listIn tok (normalize_header s) = true →
        cell_has_yearish_text s = true) ∧
    ("year ended".toList ∈ ROW_YEARISH_TOKENS ∧
        "year".toList ∉ ROW_YEARISH_TOKENS ∧
        "yr".toList ∉ ROW_YEARISH_TOKENS) := by
  constructor
  · intro s tok htok hin
    have htokne : tok ≠ [] := by
      have hall : ∀ t ∈ ROW_YEARISH_TOKENS, t ≠ ([] : List Char) := by decide
      exact hall tok htok
    have hne : ¬((normalize_header s).isEmpty = true) := by
      intro hemp
      rw [List.isEmpty_iff] at hemp
      rw [hemp] at hin
      unfold listIn at hin
      exact htokne (List.isEmpty_iff.mp hin)
    unfold cell_has_yearish_text
    rw [if_neg hne]
    by_cases hr : yearRegexSearch (normalize_header s) = true
    · rw [if_pos hr]
    · rw [if_neg hr,
        if_pos (List.any_eq_true.mpr ⟨tok, htok, hin⟩)]
  · exact ⟨by decide, by decide, by decide⟩

/-- C2 witness: "Balance Sheet" normalizes to "balance sheet", contains the
token "balance sheet", and satisfies the predicate. -/
theorem claim_C2_witness :
    ("balance sheet".toList ∈ ROW_YEARISH_TOKENS) ∧
    listIn ("balance sheet".toList)
      (normalize_header ("Balance  Sheet".toList)) = true ∧
    cell_has_yearish_text ("Balance  Sheet".toList) = true :=
  ⟨by decide, by decide,
   claim_C2.1 ("Balance  Sheet".toList) ("balance sheet".toList)
     (by decide) (by decide)⟩

/-- C10: passing an empty inclusion list is identical to passing no
inclusion list at all — the sheet filter then depends only on the exclusion
patterns, rather than excluding every sheet. -/
theorem claim_C10 :
    ∀ (sheets_exc : Option (List (List Char))) (name : List Char),
      sheet_allowed (Option.some []) sheets_exc name =
        sheet_allowed Option.none sheets_exc name := by
  intro sheets_exc name
  rfl

/-! ### Helper lemmas about the processing loop -/

/-- A non-anchor merged cell is skipped whole: returned unchanged with no
increment to either counter. -/
theorem process_cell_of_merged (cfg : Config) (sheet : Sheet) (rowY : Bool)
    (col : Nat) (cell : Cell) (h : cell.isMerged = true) :
    process_cell cfg sheet rowY col cell = (cell, 0, 0) := by
  simp [process_cell, h]

/-- The `cells_seen` increment of one cell is 1 unless the cell is a
non-anchor merged cell. -/
theorem process_cell_seen_eq (cfg : Config) (sheet : Sheet) (rowY : Bool)
    (col : Nat) (cell : Cell) :
    (process_cell cfg sheet rowY col cell).2.1 =
      if cell.isMerged = true then 0 else 1 := by
  by_cases h : cell.isMerged = true <;> simp [process_cell, h]

/-- The conversion body increments `cells_converted` by at most one. -/
theorem convert_cell_value_le_one (cfg : Config) (sheet : Sheet)
    (rowY : Bool) (col : Nat) (cell : Cell) :
    (convert_cell_value cfg sheet rowY col cell).2 ≤ 1 := by
  unfold convert_cell_value
  dsimp only
  split_ifs <;> simp

/-- Over a row, `cells_seen` counts exactly the non-merged cells. -/
theorem process_cells_seen (cfg : Config) (sheet : Sheet) (rowY : Bool) :
    ∀ (col : Nat) (cells : List Cell),
      (process_cells cfg sheet rowY col cells).2.1 =
        (cells.filter (fun c => !c.isMerged)).length := by
  intro col cells
  induction cells generalizing col with
  | nil => rfl
  | cons c cs ih =>
      rw [process_cells]
      by_cases h : c.isMerged = true
      · simp [process_cell_seen_eq, h, List.filter_cons, ih]
      · simp [process_cell_seen_eq, h, List.filter_cons, ih, Nat.add_comm]

/-- Over a sheet, `cells_seen` counts exactly the non-merged grid cells. -/
theorem process_sheet_seen (cfg : Config) (sheet : Sheet) :
    (process_sheet cfg sheet).2.cells_seen = countNonMerged sheet.rows := by
  unfold process_sheet countNonMerged
  dsimp only
  rw [List.map_map]
  refine congrArg List.sum ?_
  refine List.map_congr_left ?_
  intro r _
  simpa [process_row] using process_cells_seen cfg sheet (row_looks_yearish r) 1 r

/-- An unrecognized mode makes `_divide_amount` the identity. -/
theorem divide_amount_other (v T : ℚ) (mode : List Char)
    (h1 : mode ≠ "thousand".toList) (h2 : mode ≠ "lakh".toList)
    (h3 : mode ≠ "auto".toList) : divide_amount v mode T = v := by
  unfold divide_amount
  rw [if_neg h1, if_neg h2, if_neg h3]

/-- Under an unrecognized mode the conversion body never rewrites a cell and
never counts a conversion. -/
theorem convert_cell_value_other (cfg : Config) (sheet : Sheet) (rowY : Bool)
    (col : Nat) (cell : Cell)
    (h1 : cfg.mode ≠ "thousand".toList) (h2 : cfg.mode ≠ "lakh".toList)
    (h3 : cfg.mode ≠ "auto".toList) :
    convert_cell_value cfg sheet rowY col cell = (cell, 0) := by
  unfold convert_cell_value
  dsimp only
  rw [divide_amount_other _ _ _ h1 h2 h3]
  split_ifs <;> simp_all

/-- Per-cell form of the unrecognized-mode degradation. -/
theorem process_cell_other (cfg : Config) (sheet : Sheet) (rowY : Bool)
    (col : Nat) (cell : Cell)
    (h1 : cfg.mode ≠ "thousand".toList) (h2 : cfg.mode ≠ "lakh".toList)
    (h3 : cfg.mode ≠ "auto".toList) :
    process_cell cfg sheet rowY col cell =
      (cell, if cell.isMerged = true then 0 else 1, 0) := by
  by_cases h : cell.isMerged = true <;>
    simp [process_cell, h, convert_cell_value_other cfg sheet rowY col cell h1 h2 h3]

/-- Row form of the unrecognized-mode degradation. -/
theorem process_cells_other (cfg : Config) (sheet : Sheet) (rowY : Bool)
    (h1 : cfg.mode ≠ "thousand".toList) (h2 : cfg.mode ≠ "lakh".toList)
    (h3 : cfg.mode ≠ "auto".toList) :
    ∀ (col : Nat) (cells : List Cell),
      process_cells cfg sheet rowY col cells =
        (cells, (cells.filter (fun c => !c.isMerged)).length, 0) := by
  intro col cells
  induction cells generalizing col with
  | nil => rfl
  | cons c cs ih =>
      rw [process_cells]
      rw [process_cell_other cfg sheet rowY col c h1 h2 h3, ih]
      by_cases h : c.isMerged = true <;>
        simp [h, List.filter_cons, Nat.add_comm]

/-- Assembling the mapped rows when every row maps to itself with a row
count and a zero conversion count. -/
theorem map_rows_assemble (f : List Cell → List Cell × Nat × Nat)
    (g : List Cell → Nat) (hf : ∀ r, f r = (r, g r, 0)) :
    ∀ rs : List (List Cell),
      ((rs.map f).map (fun p => p.1) = rs) ∧
      (((rs.map f).map (fun p => p.2.1)).sum = (rs.map g).sum) ∧
      (((rs.map f).map (fun p => p.2.2)).sum = 0) := by
  intro rs
  induction rs with
  | nil => exact ⟨rfl, rfl, rfl⟩
  | cons r rs ih =>
      obtain ⟨ih1, ih2, ih3⟩ := ih
      rw [List.map_map] at ih1 ih2 ih3
      refine ⟨?_, ?_, ?_⟩
      · simp only [List.map_map, List.map_cons, Function.comp_apply, hf r,
          ih1]
      · simp only [List.map_map, List.map_cons, Function.comp_apply, hf r,
          List.sum_cons, ih2]
      · simp only [List.map_map, List.map_cons, Function.comp_apply, hf r,
          List.sum_cons, ih3]

/-- Sheet form of the unrecognized-mode degradation: the sheet is returned
unchanged, all non-merged cells are seen, none is converted. -/
theorem process_sheet_other (cfg : Config) (sheet : Sheet)
    (h1 : cfg.mode ≠ "thousand".toList) (h2 : cfg.mode ≠ "lakh".toList)
    (h3 : cfg.mode ≠ "auto".toList) :
    process_sheet cfg sheet = (sheet, ⟨countNonMerged sheet.rows, 0⟩) := by
  have hrow : ∀ r : List Cell, process_row cfg sheet r =
      (r, (r.filter (fun c => !c.isMerged)).length, 0) := by
    intro r
    unfold process_row
    exact process_cells_other cfg sheet (row_looks_yearish r) h1 h2 h3 1 r
  obtain ⟨ha, hb, hc⟩ := map_rows_assemble (process_row cfg sheet)
    (fun r => (r.filter (fun c => !c.isMerged)).length) hrow sheet.rows
  unfold process_sheet
  dsimp only
  rw [ha, hb, hc]
  rfl

/-- The sheet-loop step under an unrecognized mode. -/
theorem process_excel_step_other (cfg : Config)
    (inc exc : Option (List (List Char))) (ws : Sheet)
    (h1 : cfg.mode ≠ "thousand".toList) (h2 : cfg.mode ≠ "lakh".toList)
    (h3 : cfg.mode ≠ "auto".toList) :
    process_excel_step cfg inc exc ws =
      (ws, if sheet_allowed inc exc ws.title then
             Option.some (pyStrip ws.title, ⟨countNonMerged ws.rows, 0⟩)
           else Option.none) := by
  unfold process_excel_step
  by_cases h : sheet_allowed inc exc ws.title = true <;>
    simp [h, process_sheet_other cfg ws h1 h2 h3]

/-- Folding the totals over entries whose `cells_converted` are all zero
leaves the accumulator's `cells_converted` unchanged. -/
theorem foldl_stats_conv : ∀ (l : List (List Char × Stats)) (t : Stats),
    (∀ e ∈ l, e.2.cells_converted = 0) →
    (l.foldl (fun t e => (⟨t.cells_seen + e.2.cells_seen,
        t.cells_converted + e.2.cells_converted⟩ : Stats)) t).cells_converted
      = t.cells_converted := by
  intro l
  induction l with
  | nil => intro t _; rfl
  | cons e l ih =>
      intro t h
      rw [List.foldl_cons, ih _ (fun x hx => h x (List.mem_cons_of_mem _ hx))]
      simp [h e (List.mem_cons_self _ _)]

/-- The number of summary entries equals the number of allowed sheets,
whatever the mode. -/
theorem entries_length_eq (cfg : Config)
    (inc exc : Option (List (List Char))) :
    ∀ wb : List Sheet,
      ((wb.map (process_excel_step cfg inc exc)).filterMap
        (fun p => p.2)).length =
      (wb.filter (fun ws => sheet_allowed inc exc ws.title)).length := by
  intro wb
  induction wb with
  | nil => rfl
  | cons ws wb ih =>
      rw [List.map_cons, List.filterMap_cons, List.filter_cons]
      by_cases h : sheet_allowed inc exc ws.title = true
      · rw [show (process_excel_step cfg inc exc ws).2 =
            Option.some (pyStrip ws.title, (process_sheet cfg ws).2) from by
          unfold process_excel_step; rw [if_pos h]]
        rw [if_pos h]
        dsimp only
        rw [List.length_cons, List.length_cons, ih]
      · rw [show (process_excel_step cfg inc exc ws).2 =
            (Option.none : Option (List Char × Stats)) from by
          unfold process_excel_step; rw [if_neg h]]
        rw [if_neg h]
        exact ih

/-- C5: an unrecognized mode degrades to the identity conversion — every
cell of every sheet is left unchanged, no cell is counted as converted, and
the run completes with a summary that records the mode and one entry per
allowed sheet. -/
theorem claim_C5 : ∀ (mode : List Char) (hr : Nat) (T : ℚ)
    (inc exc : Option (List (List Char))) (wb : List Sheet),
    mode ≠ "thousand".toList → mode ≠ "lakh".toList → mode ≠ "auto".toList →
    (process_excel mode hr T inc exc wb).1 = wb ∧
    (process_excel mode hr T inc exc wb).2.totals.cells_converted = 0 ∧
    (process_excel mode hr T inc exc wb).2.mode = mode ∧
    (process_excel mode hr T inc exc wb).2.sheets.length =
      (wb.filter (fun ws => sheet_allowed inc exc ws.title)).length := by
  intro mode hr T inc exc wb h1 h2 h3
  have hstep : ∀ ws : Sheet,
      process_excel_step ⟨mode, hr, T⟩ inc exc ws =
        (ws, if sheet_allowed inc exc ws.title then
               Option.some (pyStrip ws.title, ⟨countNonMerged ws.rows, 0⟩)
             else Option.none) :=
    fun ws => process_excel_step_other ⟨mode, hr, T⟩ inc exc ws h1 h2 h3
  refine ⟨?_, ?_, rfl, ?_⟩
  · unfold process_excel
    dsimp only
    rw [List.map_map]
    have : ∀ ws : Sheet,
        ((fun p : Sheet × Option (List Char × Stats) => p.1) ∘
          process_excel_step ⟨mode, hr, T⟩ inc exc) ws = id ws := by
      intro ws
      simp [Function.comp, hstep ws]
    rw [List.map_congr_left (fun ws _ => this ws), List.map_id]
  · unfold process_excel
    dsimp only
    refine foldl_stats_conv _ _ ?_
    intro e he
    obtain ⟨p, hp, hpe⟩ := List.mem_filterMap.mp he
    obtain ⟨ws, _, hws⟩ := List.mem_map.mp hp
    rw [← hws, hstep ws] at hpe
    by_cases h : sheet_allowed inc exc ws.title = true
    · rw [if_pos h] at hpe
      cases hpe
      rfl
    · rw [if_neg h] at hpe
      cases hpe
  · unfold process_excel
    dsimp only
    exact entries_length_eq ⟨mode, hr, T⟩ inc exc wb

/-- C5 witness: a bogus mode on a one-sheet workbook returns the workbook
unchanged with zero conversions and one summary entry. -/
theorem claim_C5_witness :
    (process_excel ("bogus".toList) 1 50000 Option.none Option.none
        [sheetSummary]).1 = [sheetSummary] ∧
    (process_excel ("bogus".toList) 1 50000 Option.none Option.none
        [sheetSummary]).2.totals.cells_converted = 0 ∧
    (process_excel ("bogus".toList) 1 50000 Option.none Option.none
        [sheetSummary]).2.mode = "bogus".toList ∧
    (process_excel ("bogus".toList) 1 50000 Option.none Option.none
        [sheetSummary]).2.sheets.length =
      ([sheetSummary].filter
        (fun ws => sheet_allowed Option.none Option.none ws.title)).length :=
  claim_C5 ("bogus".toList) 1 50000 Option.none Option.none [sheetSummary]
    (by decide) (by decide) (by decide)

/-- C6: a non-anchor merged cell is skipped whole — it is returned exactly
as it was (no mutation, whatever its value or format), contributes 0 to
both counters, and sheet-level `cells_seen` counts only non-merged cells. -/
theorem claim_C6 :
    (∀ (cfg : Config) (sheet : Sheet) (rowY : Bool) (col : Nat) (cell : Cell),
        cell.isMerged = true →
        process_cell cfg sheet rowY col cell = (cell, 0, 0)) ∧
    (∀ (cfg : Config) (sheet : Sheet),
        (process_sheet cfg sheet).2.cells_seen = countNonMerged sheet.rows) :=
  ⟨fun cfg sheet rowY col cell h => process_cell_of_merged cfg sheet rowY col cell h,
   fun cfg sheet => process_sheet_seen cfg sheet⟩

/-- C6 witness: the merged cell of the sample sheet is skipped and the
sample sheet's `cells_seen` counts its two non-merged cells. -/
theorem claim_C6_witness :
    process_cell cfgThousand sheetMerged false 1 mergedCell =
      (mergedCell, 0, 0) ∧
    (process_sheet cfgThousand sheetMerged).2.cells_seen =
      countNonMerged sheetMerged.rows :=
  ⟨claim_C6.1 cfgThousand sheetMerged false 1 mergedCell rfl,
   claim_C6.2 cfgThousand sheetMerged⟩

/-- C9: every non-merged cell contributes exactly 1 to `cells_seen`
(whatever its value — in particular absent values are counted), and
sheet-level `cells_seen` is exactly the number of non-merged grid cells. -/
theorem claim_C9 :
    (∀ (cfg : Config) (sheet : Sheet) (rowY : Bool) (col : Nat) (cell : Cell),
        cell.isMerged = false →
        (process_cell cfg sheet rowY col cell).2.1 = 1) ∧
    (∀ (cfg : Config) (sheet : Sheet),
        (process_sheet cfg sheet).2.cells_seen = countNonMerged sheet.rows) := by
  constructor
  · intro cfg sheet rowY col cell h
    rw [process_cell_seen_eq, if_neg (by rw [h]; exact Bool.false_ne_true)]
  · exact fun cfg sheet => process_sheet_seen cfg sheet

/-- C9 witness: an ordinary cell with an absent value is counted in
`cells_seen`. -/
theorem claim_C9_witness :
    (process_cell cfgThousand sheetMerged false 1 noneCell).2.1 = 1 ∧
    (process_sheet cfgThousand sheetMerged).2.cells_seen =
      countNonMerged sheetMerged.rows :=
  ⟨claim_C9.1 cfgThousand sheetMerged false 1 noneCell rfl,
   claim_C9.2 cfgThousand sheetMerged⟩

/-- C7: a numeric, non-boolean cell in a days-headered column of a
depreciation sheet is left unchanged and contributes (1, 0) to the counters
— the half-up rounding is computed for statistics only — for every mode,
threshold and magnitude. -/
theorem claim_C7 : ∀ (cfg : Config) (sheet : Sheet) (rowY : Bool)
    (col : Nat) (cell : Cell) (q : ℚ),
    cell.isMerged = false →
    cell.value = Value.num q →
    is_depr_sheet sheet = true →
    days_header_pred (header_text sheet cfg.header_row col) = true →
    process_cell cfg sheet rowY col cell = (cell, 1, 0) := by
  intro cfg sheet rowY col cell q hm hv hdep hdr
  by_cases hc : cfg.header_row ≤ sheet.rows.length ∧ 1 ≤ col ∧
      col ≤ maxCol sheet
  · have hdays : col_is_days cfg sheet col = true := by
      unfold col_is_days hdrs_nonempty
      rw [hdep, hdr]
      simp only [Bool.true_and, Bool.and_true, Bool.and_eq_true,
        decide_eq_true_eq]
      omega
    simp [process_cell, hm, convert_cell_value, hdays, hv, isNumVal]
  · exfalso
    unfold header_text at hdr
    rw [if_neg hc] at hdr
    exact absurd hdr (by decide)

/-- C7 witness: the 45.5-day cell on the sample depreciation sheet is left
unchanged with no conversion, in auto mode. -/
theorem claim_C7_witness :
    process_cell cfgAuto sheetDepr false 1 daysCell = (daysCell, 1, 0) :=
  claim_C7 cfgAuto sheetDepr false 1 daysCell (91 / 2) rfl rfl (by decide)
    (by decide)

/-- C8: an Amount-classified cell is rewritten and counted as converted
exactly when the divided result differs from the stored value under exact
comparison; moreover every cell contributes at most 1 to `cells_seen` and
no more to `cells_converted` than to `cells_seen`. -/
theorem claim_C8 :
    (∀ (cfg : Config) (sheet : Sheet) (rowY : Bool) (col : Nat)
        (cell : Cell) (q : ℚ),
        cell.isMerged = false →
        cell.value = Value.num q →
        col_is_days cfg sheet col = false →
        is_percentage_cell cell = false →
        looks_like_year cell (header_text sheet cfg.header_row col)
          (Value.num q) (col_yearish sheet col) rowY = false →
        100 ≤ |q| →
        process_cell cfg sheet rowY col cell =
          (if divide_amount q cfg.mode cfg.lakh_edge_threshold = q
           then (cell, 1, 0)
           else ({ cell with
                   value := Value.num
                     (divide_amount q cfg.mode cfg.lakh_edge_threshold) },
                 1, 1))) ∧
    (∀ (cfg : Config) (sheet : Sheet) (rowY : Bool) (col : Nat)
        (cell : Cell),
        (process_cell cfg sheet rowY col cell).2.1 ≤ 1 ∧
        (process_cell cfg sheet rowY col cell).2.2 ≤
          (process_cell cfg sheet rowY col cell).2.1) := by
  constructor
  · intro cfg sheet rowY col cell q hm hv hdays hpct hyear habs
    by_cases hd : divide_amount q cfg.mode cfg.lakh_edge_threshold = q
    · rw [if_pos hd]
      simp [process_cell, hm, convert_cell_value, hv, hdays, hpct, hyear,
        habs, hd, isNumOrDate, isNumVal, numOf]
    · rw [if_neg hd]
      simp [process_cell, hm, convert_cell_value, hv, hdays, hpct, hyear,
        habs, hd, isNumOrDate, isNumVal, numOf]
  · intro cfg sheet rowY col cell
    by_cases hm : cell.isMerged = true
    · simp [process_cell, hm]
    · have hle := convert_cell_value_le_one cfg sheet rowY col cell
      simp [process_cell, hm]
      exact hle

/-- C8 witness: the 150000 amount cell on the sample sheet, in thousand
mode, instantiates the conversion equation (here the divided result 150
differs from 150000, so the cell is rewritten and counted). -/
theorem claim_C8_witness :
    process_cell cfgThousand sheetSummary false 1 amtCell =
      (if divide_amount 150000 cfgThousand.mode
            cfgThousand.lakh_edge_threshold = 150000
       then (amtCell, 1, 0)
       else ({ amtCell with
               value := Value.num (divide_amount 150000 cfgThousand.mode
                 cfgThousand.lakh_edge_threshold) }, 1, 1)) :=
  claim_C8.1 cfgThousand sheetSummary false 1 amtCell 150000 rfl rfl
    (by with_unfolding_all decide) (by decide)
    (by with_unfolding_all decide) (by with_unfolding_all decide)

end AmountRounder
